import Mathlib

/-!
Verification of the TCP header record of `src/src/tcp.rs`.

The Rust source defines a single struct `TCP` holding the TCP header
fields plus source/destination IPv4 addresses and three variable-length
byte sequences, together with a constructor `new`, one getter per field
and one fluent setter per field.

Embedding conventions:
* `Ipv4Addr` is a record of four octets (Rust `std::net::Ipv4Addr`).
* The unsigned machine integers (`u8`, `u16`, `u32`) carry no arithmetic
  anywhere in the source, so they are embedded as `Nat`; where a claim
  speaks of a specific bit width, the theorem carries an explicit bound
  hypothesis.
* `Vec<u8>` is embedded as `List Nat`; `clone` is a value copy.
* The Rust getters take `&mut self`, so they are embedded in
  state-passing style as `TCP → value × TCP`: the first component is the
  returned value, the second the state of the receiver after the call.
* The Rust setters take `mut self` by value and return `Self`, so they
  are pure functions `TCP → value → TCP`.
-/

/-- Embedding of `std::net::Ipv4Addr`: four octets. -/
structure Ipv4Addr where
  o1 : Nat
  o2 : Nat
  o3 : Nat
  o4 : Nat
deriving DecidableEq, Repr

/-- The `TCP` struct of `src/src/tcp.rs` (lines 41-55): one field per
header component, in source order. -/
structure TCP where
  source : Ipv4Addr
  destination : Ipv4Addr
  sequence : Nat
  acknowledgment : Nat
  data_offset : Nat
  reserved : Nat
  flags : Nat
  window_size : Nat
  checksum : Nat
  urgent_pointer : Nat
  options : List Nat
  padding : List Nat
  data : List Nat
deriving DecidableEq, Repr

namespace TCP

/-- Embedding of `TCP::new` (lines 63-93): builds the record from all
thirteen field values, stored unmodified. -/
def new (source : Ipv4Addr) (destination : Ipv4Addr) (sequence : Nat)
    (acknowledgment : Nat) (data_offset : Nat) (reserved : Nat)
    (flags : Nat) (window_size : Nat) (checksum : Nat)
    (urgent_pointer : Nat) (options : List Nat) (padding : List Nat)
    (data : List Nat) : TCP :=
  { source := source, destination := destination, sequence := sequence,
    acknowledgment := acknowledgment, data_offset := data_offset,
    reserved := reserved, flags := flags, window_size := window_size,
    checksum := checksum, urgent_pointer := urgent_pointer,
    options := options, padding := padding, data := data }

/-- Embedding of `TCP::get_source` (`&mut self`, returns `self.source`). -/
def get_source (self : TCP) : Ipv4Addr × TCP :=
  (self.source, self)

/-- Embedding of `TCP::get_destination`. -/
def get_destination (self : TCP) : Ipv4Addr × TCP :=
  (self.destination, self)

/-- Embedding of `TCP::get_sequence`. -/
def get_sequence (self : TCP) : Nat × TCP :=
  (self.sequence, self)

/-- Embedding of `TCP::get_acknowledgement` (source spelling). -/
def get_acknowledgement (self : TCP) : Nat × TCP :=
  (self.acknowledgment, self)

/-- Embedding of `TCP::get_data_offset`. -/
def get_data_offset (self : TCP) : Nat × TCP :=
  (self.data_offset, self)

/-- Embedding of `TCP::get_reserved`. -/
def get_reserved (self : TCP) : Nat × TCP :=
  (self.reserved, self)

/-- Embedding of `TCP::get_flags`. -/
def get_flags (self : TCP) : Nat × TCP :=
  (self.flags, self)

/-- Embedding of `TCP::get_window_size`. -/
def get_window_size (self : TCP) : Nat × TCP :=
  (self.window_size, self)

/-- Embedding of `TCP::get_checksum`. -/
def get_checksum (self : TCP) : Nat × TCP :=
  (self.checksum, self)

/-- Embedding of `TCP::get_urgent_ponter` (source spelling). -/
def get_urgent_ponter (self : TCP) : Nat × TCP :=
  (self.urgent_pointer, self)

/-- Embedding of `TCP::get_options`: returns `self.options.clone()`,
a value copy of the stored byte sequence. -/
def get_options (self : TCP) : List Nat × TCP :=
  (self.options, self)

/-- Embedding of `TCP::get_padding`: returns `self.padding.clone()`. -/
def get_padding (self : TCP) : List Nat × TCP :=
  (self.padding, self)

/-- Embedding of `TCP::get_data`: returns `self.data.clone()`. -/
def get_data (self : TCP) : List Nat × TCP :=
  (self.data, self)

/-- Embedding of `TCP::set_source` (consumes `self`, returns it with
`source` replaced). -/
def set_source (self : TCP) (source : Ipv4Addr) : TCP :=
  { self with source := source }

/-- Embedding of `TCP::set_destination`. -/
def set_destination (self : TCP) (destination : Ipv4Addr) : TCP :=
  { self with destination := destination }

/-- Embedding of `TCP::set_sequence`. -/
def set_sequence (self : TCP) (sequence : Nat) : TCP :=
  { self with sequence := sequence }

/-- Embedding of `TCP::set_acknowledgement` (source spelling). -/
def set_acknowledgement (self : TCP) (acknowledgment : Nat) : TCP :=
  { self with acknowledgment := acknowledgment }

/-- Embedding of `TCP::set_data_offset`. -/
def set_data_offset (self : TCP) (data_offset : Nat) : TCP :=
  { self with data_offset := data_offset }

/-- Embedding of `TCP::set_reserved`. -/
def set_reserved (self : TCP) (reserved : Nat) : TCP :=
  { self with reserved := reserved }

/-- Embedding of `TCP::set_flags`. -/
def set_flags (self : TCP) (flags : Nat) : TCP :=
  { self with flags := flags }

/-- Embedding of `TCP::set_window_size`. -/
def set_window_size (self : TCP) (window_size : Nat) : TCP :=
  { self with window_size := window_size }

/-- Embedding of `TCP::set_checksum`. -/
def set_checksum (self : TCP) (checksum : Nat) : TCP :=
  { self with checksum := checksum }

/-- Embedding of `TCP::set_urgent_ponter` (source spelling). -/
def set_urgent_ponter (self : TCP) (urgent_pointer : Nat) : TCP :=
  { self with urgent_pointer := urgent_pointer }

/-- Embedding of `TCP::set_options`. -/
def set_options (self : TCP) (options : List Nat) : TCP :=
  { self with options := options }

/-- Embedding of `TCP::set_padding`. -/
def set_padding (self : TCP) (padding : List Nat) : TCP :=
  { self with padding := padding }

/-- Embedding of `TCP::set_data`. -/
def set_data (self : TCP) (data : List Nat) : TCP :=
  { self with data := data }

end TCP

/-- Names of the thirteen fields of the `TCP` struct, used to quantify
claims over fields. -/
inductive TCPField where
  | source
  | destination
  | sequence
  | acknowledgment
  | data_offset
  | reserved
  | flags
  | window_size
  | checksum
  | urgent_pointer
  | options
  | padding
  | data
deriving DecidableEq, Repr

/-- The Lean type of each field's values. -/
@[reducible] def TCPField.Ty : TCPField → Type
  | .source => Ipv4Addr
  | .destination => Ipv4Addr
  | .sequence => Nat
  | .acknowledgment => Nat
  | .data_offset => Nat
  | .reserved => Nat
  | .flags => Nat
  | .window_size => Nat
  | .checksum => Nat
  | .urgent_pointer => Nat
  | .options => List Nat
  | .padding => List Nat
  | .data => List Nat

/-- TCPField-indexed dispatch to the getters: the value component of the
corresponding `get_*` method. -/
def TCP.getF (self : TCP) : (f : TCPField) → f.Ty
  | .source => self.get_source.1
  | .destination => self.get_destination.1
  | .sequence => self.get_sequence.1
  | .acknowledgment => self.get_acknowledgement.1
  | .data_offset => self.get_data_offset.1
  | .reserved => self.get_reserved.1
  | .flags => self.get_flags.1
  | .window_size => self.get_window_size.1
  | .checksum => self.get_checksum.1
  | .urgent_pointer => self.get_urgent_ponter.1
  | .options => self.get_options.1
  | .padding => self.get_padding.1
  | .data => self.get_data.1

/-- TCPField-indexed dispatch to the fluent setters `set_*`. -/
def TCP.setF (self : TCP) : (f : TCPField) → f.Ty → TCP
  | .source => self.set_source
  | .destination => self.set_destination
  | .sequence => self.set_sequence
  | .acknowledgment => self.set_acknowledgement
  | .data_offset => self.set_data_offset
  | .reserved => self.set_reserved
  | .flags => self.set_flags
  | .window_size => self.set_window_size
  | .checksum => self.set_checksum
  | .urgent_pointer => self.set_urgent_ponter
  | .options => self.set_options
  | .padding => self.set_padding
  | .data => self.set_data

/-- The concrete record of the spec's scenario (section 8): a SYN
segment from 192.0.2.1 to 192.0.2.2. -/
def sampleTCP : TCP :=
  TCP.new ⟨192, 0, 2, 1⟩ ⟨192, 0, 2, 2⟩ 1 0 5 0 2 65535 0 0 [] [] []

/-- Claim C1: constructor/accessor round-trip. For every 13-tuple of
field values, building the record with `TCP.new` and then calling each
of the thirteen getters returns exactly the value that was passed to the
constructor for that field. -/
theorem tcp_new_get_roundtrip (s d : Ipv4Addr) (seq ack off res fl w ck up : Nat)
    (opts pad dat : List Nat) :
    (TCP.new s d seq ack off res fl w ck up opts pad dat).get_source.1 = s ∧
    (TCP.new s d seq ack off res fl w ck up opts pad dat).get_destination.1 = d ∧
    (TCP.new s d seq ack off res fl w ck up opts pad dat).get_sequence.1 = seq ∧
    (TCP.new s d seq ack off res fl w ck up opts pad dat).get_acknowledgement.1 = ack ∧
    (TCP.new s d seq ack off res fl w ck up opts pad dat).get_data_offset.1 = off ∧
    (TCP.new s d seq ack off res fl w ck up opts pad dat).get_reserved.1 = res ∧
    (TCP.new s d seq ack off res fl w ck up opts pad dat).get_flags.1 = fl ∧
    (TCP.new s d seq ack off res fl w ck up opts pad dat).get_window_size.1 = w ∧
    (TCP.new s d seq ack off res fl w ck up opts pad dat).get_checksum.1 = ck ∧
    (TCP.new s d seq ack off res fl w ck up opts pad dat).get_urgent_ponter.1 = up ∧
    (TCP.new s d seq ack off res fl w ck up opts pad dat).get_options.1 = opts ∧
    (TCP.new s d seq ack off res fl w ck up opts pad dat).get_padding.1 = pad ∧
    (TCP.new s d seq ack off res fl w ck up opts pad dat).get_data.1 = dat :=
  ⟨rfl, rfl, rfl, rfl, rfl, rfl, rfl, rfl, rfl, rfl, rfl, rfl, rfl⟩

/-- Claim C2: single-field-update isolation. For every record `r`, every
field `f` and every value `v` of that field's type, the setter for `f`
followed by the getter for `f` returns `v`, and the getter for every
other field `g` returns what it returned on `r` before the update. -/
theorem tcp_set_get_frame (r : TCP) (f : TCPField) (v : f.Ty) :
    (r.setF f v).getF f = v ∧
    ∀ g : TCPField, g ≠ f → (r.setF f v).getF g = r.getF g := by
  constructor
  · cases f <;> rfl
  · intro g hg
    cases f <;> cases g <;> first | exact absurd rfl hg | rfl

/-- Witness for claim C2 at a concrete input: updating the sequence
number of the sample record to 9 makes the sequence getter return 9 and
leaves the flags getter unchanged. -/
theorem tcp_set_get_frame_witness :
    (sampleTCP.setF .sequence 9).getF .sequence = 9 ∧
    (sampleTCP.setF .sequence 9).getF .flags = sampleTCP.getF .flags :=
  ⟨(tcp_set_get_frame sampleTCP .sequence 9).1,
   (tcp_set_get_frame sampleTCP .sequence 9).2 .flags (by decide)⟩

/-- Claim C3: totality and absence of validation. Construction with
`data_offset = 255`, `flags = 0xFFFF`, any 8-bit `reserved` and any
16-bit `checksum` and `urgent_pointer` succeeds and the stored values
round-trip exactly through the getters; likewise every corresponding
setter stores such values exactly, on any record. (In the shallow
embedding all operations are total functions, so totality itself is by
construction; the content proved here is the exact round-trip at the
extreme values.) -/
theorem tcp_no_validation_extremes (s d : Ipv4Addr) (seq ack w res ck up : Nat)
    (opts pad dat : List Nat) (r : TCP)
    (hres : res < 2 ^ 8) (hck : ck < 2 ^ 16) (hup : up < 2 ^ 16) :
    ((TCP.new s d seq ack 255 res 0xFFFF w ck up opts pad dat).get_data_offset.1 = 255 ∧
     (TCP.new s d seq ack 255 res 0xFFFF w ck up opts pad dat).get_reserved.1 = res ∧
     (TCP.new s d seq ack 255 res 0xFFFF w ck up opts pad dat).get_flags.1 = 0xFFFF ∧
     (TCP.new s d seq ack 255 res 0xFFFF w ck up opts pad dat).get_checksum.1 = ck ∧
     (TCP.new s d seq ack 255 res 0xFFFF w ck up opts pad dat).get_urgent_ponter.1 = up) ∧
    ((r.set_data_offset 255).get_data_offset.1 = 255 ∧
     (r.set_reserved res).get_reserved.1 = res ∧
     (r.set_flags 0xFFFF).get_flags.1 = 0xFFFF ∧
     (r.set_checksum ck).get_checksum.1 = ck ∧
     (r.set_urgent_ponter up).get_urgent_ponter.1 = up) :=
  ⟨⟨rfl, rfl, rfl, rfl, rfl⟩, ⟨rfl, rfl, rfl, rfl, rfl⟩⟩

/-- Witness for claim C3 at a concrete input: `reserved = 200`,
`checksum = 65535`, `urgent_pointer = 12345`, mutating the sample
record. -/
theorem tcp_no_validation_extremes_witness :
    ((TCP.new ⟨0, 0, 0, 0⟩ ⟨0, 0, 0, 0⟩ 0 0 255 200 0xFFFF 0 65535 12345 [] [] []).get_data_offset.1 = 255 ∧
     (TCP.new ⟨0, 0, 0, 0⟩ ⟨0, 0, 0, 0⟩ 0 0 255 200 0xFFFF 0 65535 12345 [] [] []).get_reserved.1 = 200 ∧
     (TCP.new ⟨0, 0, 0, 0⟩ ⟨0, 0, 0, 0⟩ 0 0 255 200 0xFFFF 0 65535 12345 [] [] []).get_flags.1 = 0xFFFF ∧
     (TCP.new ⟨0, 0, 0, 0⟩ ⟨0, 0, 0, 0⟩ 0 0 255 200 0xFFFF 0 65535 12345 [] [] []).get_checksum.1 = 65535 ∧
     (TCP.new ⟨0, 0, 0, 0⟩ ⟨0, 0, 0, 0⟩ 0 0 255 200 0xFFFF 0 65535 12345 [] [] []).get_urgent_ponter.1 = 12345) ∧
    ((sampleTCP.set_data_offset 255).get_data_offset.1 = 255 ∧
     (sampleTCP.set_reserved 200).get_reserved.1 = 200 ∧
     (sampleTCP.set_flags 0xFFFF).get_flags.1 = 0xFFFF ∧
     (sampleTCP.set_checksum 65535).get_checksum.1 = 65535 ∧
     (sampleTCP.set_urgent_ponter 12345).get_urgent_ponter.1 = 12345) :=
  tcp_no_validation_extremes ⟨0, 0, 0, 0⟩ ⟨0, 0, 0, 0⟩ 0 0 0 200 65535 12345 [] [] []
    sampleTCP (by decide) (by decide) (by decide)

/-- Claim C4: setter chaining commutes for distinct fields. For every
record and every pair of distinct fields with values `v1`, `v2`,
applying the two setters in either order yields a record on which the
getter for `f1` returns `v1` and the getter for `f2` returns `v2`, and
the two orders produce the same record. -/
theorem tcp_set_comm_distinct (r : TCP) (f1 f2 : TCPField)
    (v1 : f1.Ty) (v2 : f2.Ty) (h : f1 ≠ f2) :
    ((r.setF f1 v1).setF f2 v2).getF f1 = v1 ∧
    ((r.setF f1 v1).setF f2 v2).getF f2 = v2 ∧
    (r.setF f1 v1).setF f2 v2 = (r.setF f2 v2).setF f1 v1 := by
  cases f1 <;> cases f2 <;> first | exact absurd rfl h | exact ⟨rfl, rfl, rfl⟩

/-- Witness for claim C4 at a concrete input: setting sequence to 7 and
flags to 3 on the sample record, in either order. -/
theorem tcp_set_comm_distinct_witness :
    ((sampleTCP.setF .sequence 7).setF .flags 3).getF .sequence = 7 ∧
    ((sampleTCP.setF .sequence 7).setF .flags 3).getF .flags = 3 ∧
    (sampleTCP.setF .sequence 7).setF .flags 3 = (sampleTCP.setF .flags 3).setF .sequence 7 :=
  tcp_set_comm_distinct sampleTCP .sequence .flags 7 3 (by decide)

/-- Claim C5: accessors are pure reads. Each getter is declared on a
mutable receiver in the source (`&mut self`); in the state-passing
embedding this means each getter returns a post-state, and for every
record that post-state equals the receiver unchanged, for all thirteen
getters. -/
theorem tcp_getters_pure (r : TCP) :
    r.get_source.2 = r ∧ r.get_destination.2 = r ∧ r.get_sequence.2 = r ∧
    r.get_acknowledgement.2 = r ∧ r.get_data_offset.2 = r ∧
    r.get_reserved.2 = r ∧ r.get_flags.2 = r ∧ r.get_window_size.2 = r ∧
    r.get_checksum.2 = r ∧ r.get_urgent_ponter.2 = r ∧
    r.get_options.2 = r ∧ r.get_padding.2 = r ∧ r.get_data.2 = r :=
  ⟨rfl, rfl, rfl, rfl, rfl, rfl, rfl, rfl, rfl, rfl, rfl, rfl, rfl⟩

/-- Claim C6: the spec's concrete scenario. Constructing the SYN sample
record makes every getter return the corresponding literal, and applying
`set_sequence 2` makes the sequence getter return 2 while the other
twelve getters return the same values as before. -/
theorem tcp_scenario_syn :
    (sampleTCP.get_source.1 = ⟨192, 0, 2, 1⟩ ∧
     sampleTCP.get_destination.1 = ⟨192, 0, 2, 2⟩ ∧
     sampleTCP.get_sequence.1 = 1 ∧
     sampleTCP.get_acknowledgement.1 = 0 ∧
     sampleTCP.get_data_offset.1 = 5 ∧
     sampleTCP.get_reserved.1 = 0 ∧
     sampleTCP.get_flags.1 = 0x02 ∧
     sampleTCP.get_window_size.1 = 65535 ∧
     sampleTCP.get_checksum.1 = 0 ∧
     sampleTCP.get_urgent_ponter.1 = 0 ∧
     sampleTCP.get_options.1 = [] ∧
     sampleTCP.get_padding.1 = [] ∧
     sampleTCP.get_data.1 = []) ∧
    ((sampleTCP.set_sequence 2).get_sequence.1 = 2 ∧
     (sampleTCP.set_sequence 2).get_source.1 = sampleTCP.get_source.1 ∧
     (sampleTCP.set_sequence 2).get_destination.1 = sampleTCP.get_destination.1 ∧
     (sampleTCP.set_sequence 2).get_acknowledgement.1 = sampleTCP.get_acknowledgement.1 ∧
     (sampleTCP.set_sequence 2).get_data_offset.1 = sampleTCP.get_data_offset.1 ∧
     (sampleTCP.set_sequence 2).get_reserved.1 = sampleTCP.get_reserved.1 ∧
     (sampleTCP.set_sequence 2).get_flags.1 = sampleTCP.get_flags.1 ∧
     (sampleTCP.set_sequence 2).get_window_size.1 = sampleTCP.get_window_size.1 ∧
     (sampleTCP.set_sequence 2).get_checksum.1 = sampleTCP.get_checksum.1 ∧
     (sampleTCP.set_sequence 2).get_urgent_ponter.1 = sampleTCP.get_urgent_ponter.1 ∧
     (sampleTCP.set_sequence 2).get_options.1 = sampleTCP.get_options.1 ∧
     (sampleTCP.set_sequence 2).get_padding.1 = sampleTCP.get_padding.1 ∧
     (sampleTCP.set_sequence 2).get_data.1 = sampleTCP.get_data.1) := by
  decide

/-- Claim C7: every record value is reachable by construction. `TCP.new`
stores every supplied field value unmodified, and conversely every
record equals the result of a call to `TCP.new` on its own field values,
so no invariant constrains which records exist. -/
theorem tcp_all_records_constructible :
    (∀ (s d : Ipv4Addr) (seq ack off res fl w ck up : Nat) (opts pad dat : List Nat),
      (TCP.new s d seq ack off res fl w ck up opts pad dat).source = s ∧
      (TCP.new s d seq ack off res fl w ck up opts pad dat).destination = d ∧
      (TCP.new s d seq ack off res fl w ck up opts pad dat).sequence = seq ∧
      (TCP.new s d seq ack off res fl w ck up opts pad dat).acknowledgment = ack ∧
      (TCP.new s d seq ack off res fl w ck up opts pad dat).data_offset = off ∧
      (TCP.new s d seq ack off res fl w ck up opts pad dat).reserved = res ∧
      (TCP.new s d seq ack off res fl w ck up opts pad dat).flags = fl ∧
      (TCP.new s d seq ack off res fl w ck up opts pad dat).window_size = w ∧
      (TCP.new s d seq ack off res fl w ck up opts pad dat).checksum = ck ∧
      (TCP.new s d seq ack off res fl w ck up opts pad dat).urgent_pointer = up ∧
      (TCP.new s d seq ack off res fl w ck up opts pad dat).options = opts ∧
      (TCP.new s d seq ack off res fl w ck up opts pad dat).padding = pad ∧
      (TCP.new s d seq ack off res fl w ck up opts pad dat).data = dat) ∧
    (∀ t : TCP,
      TCP.new t.source t.destination t.sequence t.acknowledgment t.data_offset
        t.reserved t.flags t.window_size t.checksum t.urgent_pointer
        t.options t.padding t.data = t) :=
  ⟨fun _ _ _ _ _ _ _ _ _ _ _ _ _ =>
    ⟨rfl, rfl, rfl, rfl, rfl, rfl, rfl, rfl, rfl, rfl, rfl, rfl, rfl⟩,
   fun _ => rfl⟩

/-- Claim C8: copy independence of the variable-length fields. Each of
`get_options`, `get_padding`, `get_data` returns a value copy of the
stored byte sequence; modelling a caller mutation as an arbitrary
function `m` applied to the returned copy, the caller ends with
`m` of the stored sequence while the record's post-state still stores
the original sequence, for every record (empty and non-empty sequences
alike). -/
theorem tcp_clone_copy_independent (r : TCP) (m : List Nat → List Nat) :
    (Prod.map m id r.get_options).1 = m r.options ∧
    (Prod.map m id r.get_options).2.options = r.options ∧
    (Prod.map m id r.get_padding).1 = m r.padding ∧
    (Prod.map m id r.get_padding).2.padding = r.padding ∧
    (Prod.map m id r.get_data).1 = m r.data ∧
    (Prod.map m id r.get_data).2.data = r.data :=
  ⟨rfl, rfl, rfl, rfl, rfl, rfl⟩

/-- Claim C9: setter idempotence. For every record, every field and
every value, applying the setter for that field with that value twice
yields the same record as applying it once. -/
theorem tcp_set_idempotent (r : TCP) (f : TCPField) (v : f.Ty) :
    (r.setF f v).setF f v = r.setF f v := by
  cases f <;> rfl

/-- Claim C10: setter identity on the current value. For every record
and every field, applying the setter for that field with the value the
getter currently returns yields a record equal to the original. -/
theorem tcp_set_current_identity (r : TCP) (f : TCPField) :
    r.setF f (r.getF f) = r := by
  cases f <;> rfl
